import Mathlib

/-!
# Verification of the chunked CSV upload pipeline (`src/scripts/main.py`)

This file gives a shallow embedding of the `CsvUploader` pipeline:

* the chunk-building loop of `process_and_upload_chunks` (lines 199-230),
* the chunk-file writer `_write_chunk` (lines 232-243),
* the upload/re-authentication state machine `upload_call` (lines 164-197)
  together with the tenacity retry policy (`stop_after_attempt(3)`,
  `retry_if_exception_type(Exception)`),
* the per-chunk driver `upload_csv_file` (lines 149-162) and the relocation
  of delivered chunks,
* credential resolution `_fill_username_password` and constructor ordering
  (lines 99-130),
* the filesystem-event ordering of `_prepare_output_directory` (lines 245-251).

Machine integers do not occur (Python integers are unbounded); sizes are `Nat`.
The HTTP layer is modelled by an environment supplying each attempt's response
and each auth call's freshly issued token.
-/

namespace FileUploader

/-- A structural CSV row: the ordered list of its field values
(`row` in `process_and_upload_chunks`). -/
abbrev Row := List String

/-- `self.MAX_CHUNK_SIZE = 9 * 1024 * 1024` (main.py line 102). -/
def MAX_CHUNK_SIZE : Nat := 9 * 1024 * 1024

/-- `self.PROCESSED_DIR = "uploaded"` (main.py line 109). -/
def PROCESSED_DIR : String := "uploaded"

/-- `row_size = len(",".join(row).encode("utf-8")) + 1` (main.py line 212):
the UTF-8 byte length of the comma-joined fields plus one separator byte. -/
def rowSize (row : Row) : Nat :=
  (String.intercalate "," row).utf8ByteSize + 1

/-- The loop state of `process_and_upload_chunks` (lines 201-203):
`chunks` records the contents of the chunk files sealed (written and
uploaded) so far, in sequence order; `buf` is the in-memory list `chunk`;
`size` is `current_chunk_size`. -/
structure ChunkAcc where
  chunks : List (List Row)
  buf : List Row
  size : Nat
deriving Repr, DecidableEq

/-- One iteration of the `for row in csv_file_reader` loop (lines 211-224),
translated statement by statement:

* line 213 `chunk.append(row)` — the row is appended to the buffer;
* line 215 `if current_chunk_size + row_size > self.MAX_CHUNK_SIZE:` — note the
  counter does not yet include this row;
* lines 216-222 on overflow: the buffer *including the just-appended row* is
  sealed as the next chunk, then `chunk = []` and `current_chunk_size = 0`;
* line 223 `chunk.append(row)` — the row is appended a second time (after a
  seal this lands in the fresh buffer);
* line 224 `current_chunk_size += row_size` — counted once either way.

So the no-seal branch leaves `buf ++ [row, row]` and the seal branch seals
`buf ++ [row]` and starts the new buffer at `[row]`. -/
def chunkStep (s : ChunkAcc) (row : Row) : ChunkAcc :=
  if s.size + rowSize row > MAX_CHUNK_SIZE then
    { chunks := s.chunks ++ [s.buf ++ [row]], buf := [row], size := rowSize row }
  else
    { chunks := s.chunks, buf := s.buf ++ [row, row], size := s.size + rowSize row }

/-- The chunk contents produced by `process_and_upload_chunks` from the data
rows (the rows after the header): the loop of lines 211-224 folded over the
rows, followed by the final `if chunk:` seal of lines 225-230. -/
def chunkRows (rows : List Row) : List (List Row) :=
  let s := rows.foldl chunkStep ⟨[], [], 0⟩
  if s.buf.isEmpty then s.chunks else s.chunks ++ [s.buf]

/-- Header handling of `process_and_upload_chunks` (lines 208-210): skip
`HEADER - 1` rows (Python `range(self.HEADER - 1)`, empty when `HEADER ≤ 1`,
matching truncated subtraction), then `headers = next(csv_file_reader)`;
`none` models the `StopIteration` when the file has no header row. -/
def source_data_rows (header_cfg : Nat) (fileRows : List Row) :
    Option (Row × List Row) :=
  match fileRows.drop (header_cfg - 1) with
  | [] => none
  | h :: t => some (h, t)

/-- `process_and_upload_chunks` restricted to its data transformation: the
captured header and the list of chunk contents, in sequence-index order. -/
def process_chunks (header_cfg : Nat) (fileRows : List Row) :
    Option (Row × List (List Row)) :=
  (source_data_rows header_cfg fileRows).map fun p => (p.1, chunkRows p.2)

/-- Serialized row payload of a chunk, header excluded: the sum of the
per-row sizes (each row delimiter-joined plus one separator byte). -/
def chunkPayload (c : List Row) : Nat :=
  (c.map rowSize).sum

/-- C1: the spec requires that the chunk contents, concatenated in
sequence-index order (header excluded), reproduce the original data rows
exactly once each. The code appends every row to the buffer twice (main.py
lines 213 and 223), so already a source with the single data row `["a"]`
yields one chunk holding that row twice: the concatenation has the row
twice, not once. This evaluates the embedded loop at that failing input. -/
theorem process_chunks_duplicates_rows :
    process_chunks 1 [["h"], ["a"]] = some (["h"], [[["a"], ["a"]]]) ∧
    (chunkRows [["a"]]).flatten = [["a"], ["a"]] ∧
    (chunkRows [["a"]]).flatten ≠ [["a"]] := by
  decide

/-- A single-field row of `n` copies of the one-byte character `c`; used to
exercise the size-threshold branch of the loop with concrete large rows. -/
def charRow (c : Char) (n : Nat) : Row :=
  [String.mk (List.replicate n c)]

theorem utf8Len_replicate (n : Nat) (c : Char) :
    String.utf8Len (List.replicate n c) = n * c.utf8Size := by
  induction n with
  | zero => simp
  | succ n ih => rw [List.replicate_succ, String.utf8Len_cons, ih]; ring

/-- The serialized size of `charRow c n` for a one-byte character is `n + 1`. -/
theorem rowSize_charRow (c : Char) (n : Nat) (h : c.utf8Size = 1) :
    rowSize (charRow c n) = n + 1 := by
  have hjoin : String.intercalate "," [String.mk (List.replicate n c)]
      = String.mk (List.replicate n c) := rfl
  simp [rowSize, charRow, hjoin, String.utf8ByteSize_mk, utf8Len_replicate, h]

/-- A 5 MiB single-field row (serialized size `5242880 ≤ MAX_CHUNK_SIZE`). -/
def bigRow (c : Char) : Row := charRow c 5242879

theorem rowSize_bigRow (c : Char) (h : c.utf8Size = 1) :
    rowSize (bigRow c) = 5242880 :=
  rowSize_charRow c 5242879 h

/-- Running the loop on two 5 MiB rows: the first row is buffered twice
(lines 213 and 223); the second row is appended (line 213), the counter check
`5242880 + 5242880 > 9437184` fires, and the buffer `[A, A, B]` is sealed as
chunk 1; the second append (line 223) starts the next buffer at `[B]`, sealed
as chunk 2 after the loop. -/
theorem chunkStep_first_bigRow :
    chunkStep ⟨[], [], 0⟩ (bigRow 'a') =
      ⟨[], [bigRow 'a', bigRow 'a'], 5242880⟩ := by
  have ha : rowSize (bigRow 'a') = 5242880 := rowSize_bigRow 'a' (by decide)
  unfold chunkStep
  rw [ha]
  norm_num [MAX_CHUNK_SIZE]

theorem chunkStep_second_bigRow :
    chunkStep ⟨[], [bigRow 'a', bigRow 'a'], 5242880⟩ (bigRow 'b') =
      ⟨[[bigRow 'a', bigRow 'a', bigRow 'b']], [bigRow 'b'], 5242880⟩ := by
  have hb : rowSize (bigRow 'b') = 5242880 := rowSize_bigRow 'b' (by decide)
  unfold chunkStep
  rw [hb]
  norm_num [MAX_CHUNK_SIZE]

theorem chunkRows_two_bigRows :
    chunkRows [bigRow 'a', bigRow 'b'] =
      [[bigRow 'a', bigRow 'a', bigRow 'b'], [bigRow 'b']] := by
  unfold chunkRows
  rw [List.foldl_cons, chunkStep_first_bigRow, List.foldl_cons,
    chunkStep_second_bigRow, List.foldl_nil]
  rfl

/-- C2: the spec allows a chunk's serialized row payload to exceed
`MAX_CHUNK_SIZE` only when the chunk is a single oversized row. Because every
row is appended twice (lines 213 and 223) while `current_chunk_size` counts it
once (line 224), two 5 MiB rows produce a first chunk `[A, A, B]` whose payload
is `15728640 > 9437184` bytes even though it has three rows, none of which
alone exceeds the ceiling. Evaluates the embedded loop at that failing input. -/
theorem chunkRows_payload_exceeds_limit :
    chunkRows [bigRow 'a', bigRow 'b'] =
      [[bigRow 'a', bigRow 'a', bigRow 'b'], [bigRow 'b']] ∧
    chunkPayload [bigRow 'a', bigRow 'a', bigRow 'b'] > MAX_CHUNK_SIZE ∧
    [bigRow 'a', bigRow 'a', bigRow 'b'].length ≠ 1 ∧
    rowSize (bigRow 'a') ≤ MAX_CHUNK_SIZE ∧
    rowSize (bigRow 'b') ≤ MAX_CHUNK_SIZE := by
  have ha : rowSize (bigRow 'a') = 5242880 := rowSize_bigRow 'a' (by decide)
  have hb : rowSize (bigRow 'b') = 5242880 := rowSize_bigRow 'b' (by decide)
  refine ⟨chunkRows_two_bigRows, ?_, by simp, ?_, ?_⟩
  · norm_num [chunkPayload, ha, hb, MAX_CHUNK_SIZE]
  · norm_num [ha, MAX_CHUNK_SIZE]
  · norm_num [hb, MAX_CHUNK_SIZE]

/-- C3: the spec's corrected algorithm appends each row once and, on overflow,
seals the buffer *before* adding the triggering row, so the sealed chunk must
not contain it. In the code the triggering row is appended before the check
(line 213), so the sealed chunk ends with the triggering row, which then also
starts the next buffer (line 223); and with no overflow a row is still appended
twice rather than once. Both failures evaluated on the embedded loop. -/
theorem chunkStep_seals_triggering_row :
    chunkStep ⟨[], [bigRow 'a', bigRow 'a'], 5242880⟩ (bigRow 'b') =
      ⟨[[bigRow 'a', bigRow 'a', bigRow 'b']], [bigRow 'b'], 5242880⟩ ∧
    bigRow 'b' ∈ [bigRow 'a', bigRow 'a', bigRow 'b'] ∧
    chunkRows [["a"]] = [[["a"], ["a"]]] := by
  have hb : rowSize (bigRow 'b') = 5242880 := rowSize_bigRow 'b' (by decide)
  refine ⟨?_, by simp, by decide⟩
  unfold chunkStep
  rw [hb]
  norm_num [MAX_CHUNK_SIZE]

/-! ## The upload / re-authentication state machine

`upload_call` (main.py lines 164-197) posts one chunk with header
`Authorization: Bearer {self.generated_jwt}` and either returns the response
(status 200), or regenerates the JWT and raises (status 401), or raises
(any other status, or a `requests.RequestException` from the transport).
The tenacity decorator (lines 164-171) retries any raised `Exception` up to
`stop_after_attempt(3)` total attempts and raises `RetryError` on exhaustion.

The HTTP world is an environment: `resp k` is what the server answers to the
`k`-th upload attempt for the chunk at hand, and `fresh n` is the token the
auth endpoint issues on the `n`-th re-authentication call (`_generate_jwt`).
-/

/-- Result of one `requests.post` of a chunk: a response with its status code
and body, or a raised transport-level `requests.RequestException`. -/
inductive HttpResult where
  | resp (status : Nat) (body : String)
  | exn (msg : String)
deriving Repr, DecidableEq

/-- The mutable uploader state read and written by `upload_call`:
`generated_jwt` is the field assigned at lines 117 and 191, and `authCalls`
counts the `_generate_jwt` invocations made so far (after `__init__`). -/
structure LoopState where
  generated_jwt : String
  authCalls : Nat
deriving Repr, DecidableEq

/-- One body execution of `upload_call` (lines 172-197): returns the state
after the call, whether the call returned normally (status 200) rather than
raising, and the bearer token that was put in the Authorization header of
this attempt (line 175, read from `self.generated_jwt` before the post).
On a 401 the state's token is replaced by the token the auth endpoint issues
(`fresh st.authCalls`, one `_generate_jwt` call) and the call raises. -/
def upload_call (st : LoopState) (r : HttpResult) (fresh : Nat → String) :
    LoopState × Bool × String :=
  match r with
  | .exn _ => (st, false, st.generated_jwt)
  | .resp status _ =>
    if status = 200 then (st, true, st.generated_jwt)
    else if status = 401 then
      ({ generated_jwt := fresh st.authCalls, authCalls := st.authCalls + 1 },
        false, st.generated_jwt)
    else (st, false, st.generated_jwt)

/-- `status_code == 200` is the only outcome on which `upload_call` returns
normally (lines 187-189). -/
def isSuccess : HttpResult → Bool
  | .resp status _ => status = 200
  | .exn _ => false

/-- The tenacity retry loop around `upload_call`: `budget` attempts remain
(`stop_after_attempt(3)` starts it at 3), `i` is the index of the next
attempt. Returns the final state, whether some attempt returned normally
(`false` models the `RetryError` raised on exhaustion), and the list of
Authorization bearer tokens used by the attempts, in order. -/
def uploadWithRetry (fresh : Nat → String) (resp : Nat → HttpResult) :
    Nat → LoopState → Nat → LoopState × Bool × List String
  | 0, st, _ => (st, false, [])
  | budget + 1, st, i =>
    let a := upload_call st (resp i) fresh
    if a.2.1 then (a.1, true, [a.2.2])
    else
      let rest := uploadWithRetry fresh resp budget a.1 (i + 1)
      (rest.1, rest.2.1, a.2.2 :: rest.2.2)

/-- The per-chunk HTTP environment: the server's response to each attempt for
this chunk, and whether the post-success `shutil.move` (line 157) succeeds
(`false` models the move raising an `OSError`). -/
structure ChunkEnv where
  resp : Nat → HttpResult
  moveOk : Bool

/-- `upload_csv_file` (lines 149-162): runs `upload_call` under the retry
policy; on success moves the chunk file into the `PROCESSED_DIR` sub-area;
catches only `RetryError`, logging the permanent failure. Result:
`.error` models an exception escaping `upload_csv_file` (only the move can
raise one — `RetryError` is caught); `.ok (st, moves, toks, permFailLogged)`
gives the final uploader state, the number of completed relocations of this
chunk, the bearer tokens used by the attempts, and whether the `RetryError`
branch logged the chunk as permanently failed (line 160). -/
def upload_csv_file (fresh : Nat → String) (st : LoopState) (env : ChunkEnv) :
    Except String (LoopState × Nat × List String × Bool) :=
  let r := uploadWithRetry fresh env.resp 3 st 0
  if r.2.1 then
    if env.moveOk then .ok (r.1, 1, r.2.2, false)
    else .error "shutil.move raised"
  else .ok (r.1, 0, r.2.2, true)

/-- The chunks of one run processed in order, threading the uploader state
(`self.generated_jwt`) from each chunk to the next, as
`process_and_upload_chunks` does by calling `upload_csv_file` once per sealed
chunk on the same `self`. An exception escaping `upload_csv_file` aborts the
run (`.error`); otherwise the per-chunk results are collected in order. -/
def runChunks (fresh : Nat → String) :
    LoopState → List ChunkEnv → Except String (LoopState × List (Nat × List String × Bool))
  | st, [] => .ok (st, [])
  | st, env :: envs =>
    match upload_csv_file fresh st env with
    | .error m => .error m
    | .ok (st', moves, toks, logged) =>
      match runChunks fresh st' envs with
      | .error m => .error m
      | .ok (stF, rest) => .ok (stF, (moves, toks, logged) :: rest)

/-! ### Lemmas about the state machine -/

theorem upload_call_token (st : LoopState) (r : HttpResult) (fresh : Nat → String) :
    (upload_call st r fresh).2.2 = st.generated_jwt := by
  unfold upload_call
  rcases r with ⟨s, b⟩ | m
  · by_cases h200 : s = 200
    · simp [h200]
    · by_cases h401 : s = 401 <;> simp [h200, h401]
  · rfl

theorem upload_call_ok_iff (st : LoopState) (r : HttpResult) (fresh : Nat → String) :
    (upload_call st r fresh).2.1 = isSuccess r := by
  unfold upload_call isSuccess
  rcases r with ⟨s, b⟩ | m
  · by_cases h200 : s = 200
    · simp [h200]
    · by_cases h401 : s = 401 <;> simp [h200, h401]
  · rfl

/-- When at least one attempt remains, the first attempt's Authorization
header carries exactly the currently stored `generated_jwt`. -/
theorem uploadWithRetry_head_token (fresh : Nat → String) (resp : Nat → HttpResult)
    (budget : Nat) (st : LoopState) (i : Nat) :
    (uploadWithRetry fresh resp (budget + 1) st i).2.2.head? =
      some st.generated_jwt := by
  unfold uploadWithRetry
  by_cases h : (upload_call st (resp i) fresh).2.1
  · simp [h, upload_call_token]
  · simp [h, upload_call_token]

/-- The retry loop never makes more attempts than its budget. -/
theorem uploadWithRetry_length_le (fresh : Nat → String) (resp : Nat → HttpResult) :
    ∀ (budget : Nat) (st : LoopState) (i : Nat),
      (uploadWithRetry fresh resp budget st i).2.2.length ≤ budget := by
  intro budget
  induction budget with
  | zero => intro st i; simp [uploadWithRetry]
  | succ b ih =>
    intro st i
    unfold uploadWithRetry
    by_cases h : (upload_call st (resp i) fresh).2.1
    · simp [h]
    · simpa [h] using Nat.succ_le_succ (ih _ (i + 1))

/-- If no response is a success, the loop consumes its whole budget and ends
unsuccessfully (tenacity raises `RetryError`). -/
theorem uploadWithRetry_exhausts (fresh : Nat → String) (resp : Nat → HttpResult)
    (hfail : ∀ k, isSuccess (resp k) = false) :
    ∀ (budget : Nat) (st : LoopState) (i : Nat),
      (uploadWithRetry fresh resp budget st i).2.1 = false
      ∧ (uploadWithRetry fresh resp budget st i).2.2.length = budget := by
  intro budget
  induction budget with
  | zero => intro st i; simp [uploadWithRetry]
  | succ b ih =>
    intro st i
    unfold uploadWithRetry
    have h : (upload_call st (resp i) fresh).2.1 = false := by
      rw [upload_call_ok_iff]; exact hfail i
    simp only [h, Bool.false_eq_true, if_false, List.length_cons]
    exact ⟨(ih _ (i + 1)).1, by rw [(ih _ (i + 1)).2]⟩

/-- Processing one chunk whose `upload_csv_file` returns normally continues
with the remaining chunks from the resulting uploader state. -/
theorem runChunks_cons_ok (fresh : Nat → String) (st : LoopState) (env : ChunkEnv)
    (envs : List ChunkEnv) (st' : LoopState) (moves : Nat) (toks : List String)
    (logged : Bool)
    (h : upload_csv_file fresh st env = .ok (st', moves, toks, logged)) :
    runChunks fresh st (env :: envs) =
      (runChunks fresh st' envs).map (fun p => (p.1, (moves, toks, logged) :: p.2)) := by
  cases hres : runChunks fresh st' envs with
  | error m => unfold runChunks; simp only [h, hres]; rfl
  | ok p => unfold runChunks; simp only [h, hres]; rfl

/-- C4: an upload attempt answered with HTTP 401 makes exactly one
re-authentication call (`_generate_jwt`, main.py line 191), replacing the
stored `generated_jwt` in place with the newly issued token; the attempt
raises (retryable, so it does not end the retry loop by success), its own
header still carried the old token, and the following attempt's Authorization
header carries exactly the newly issued token. -/
theorem upload_call_401_reauth (st : LoopState) (fresh : Nat → String)
    (resp : Nat → HttpResult) (i budget : Nat) (body : String)
    (h : resp i = HttpResult.resp 401 body) :
    upload_call st (resp i) fresh =
      ({ generated_jwt := fresh st.authCalls, authCalls := st.authCalls + 1 },
        false, st.generated_jwt)
    ∧ (uploadWithRetry fresh resp (budget + 2) st i).2.2.head? =
        some st.generated_jwt
    ∧ ((uploadWithRetry fresh resp (budget + 2) st i).2.2.tail).head? =
        some (fresh st.authCalls) := by
  have hcall : upload_call st (resp i) fresh =
      ({ generated_jwt := fresh st.authCalls, authCalls := st.authCalls + 1 },
        false, st.generated_jwt) := by
    rw [h]; unfold upload_call; norm_num
  refine ⟨hcall, uploadWithRetry_head_token fresh resp (budget + 1) st i, ?_⟩
  show ((uploadWithRetry fresh resp (budget + 1 + 1) st i).2.2.tail).head? = _
  unfold uploadWithRetry
  rw [hcall]
  simpa using uploadWithRetry_head_token fresh resp budget
    ({ generated_jwt := fresh st.authCalls, authCalls := st.authCalls + 1 }) (i + 1)

/-- C4 witness: a concrete 401 first attempt. -/
theorem upload_call_401_reauth_witness :
    upload_call ⟨"old", 0⟩ (HttpResult.resp 401 "x") (fun _ => "new") =
      (⟨"new", 1⟩, false, "old")
    ∧ (uploadWithRetry (fun _ => "new") (fun _ => HttpResult.resp 401 "x")
        2 ⟨"old", 0⟩ 0).2.2.head? = some "old"
    ∧ ((uploadWithRetry (fun _ => "new") (fun _ => HttpResult.resp 401 "x")
        2 ⟨"old", 0⟩ 0).2.2.tail).head? = some "new" :=
  upload_call_401_reauth ⟨"old", 0⟩ (fun _ => "new")
    (fun _ => HttpResult.resp 401 "x") 0 0 "x" rfl

/-- C5: each chunk is attempted at most 3 times in total; when none of the
attempts succeeds, all 3 attempts are consumed (every non-success outcome,
including 401, costs one), `upload_csv_file` catches the `RetryError`, logs
the chunk as permanently failed instead of relocating it, and the run
continues with the next chunk. -/
theorem retry_budget_exhaustion_continues (fresh : Nat → String) (st : LoopState)
    (env : ChunkEnv) (envs : List ChunkEnv) :
    (uploadWithRetry fresh env.resp 3 st 0).2.2.length ≤ 3
    ∧ ((∀ k, isSuccess (env.resp k) = false) →
        ∃ st' toks,
          upload_csv_file fresh st env = .ok (st', 0, toks, true)
          ∧ toks.length = 3
          ∧ runChunks fresh st (env :: envs) =
              (runChunks fresh st' envs).map (fun p => (p.1, (0, toks, true) :: p.2))) := by
  refine ⟨uploadWithRetry_length_le fresh env.resp 3 st 0, fun hfail => ?_⟩
  have hex := uploadWithRetry_exhausts fresh env.resp hfail 3 st 0
  have hup : upload_csv_file fresh st env =
      .ok ((uploadWithRetry fresh env.resp 3 st 0).1, 0,
        (uploadWithRetry fresh env.resp 3 st 0).2.2, true) := by
    unfold upload_csv_file
    simp [hex.1]
  exact ⟨_, _, hup, hex.2, runChunks_cons_ok fresh st env envs _ 0 _ true hup⟩

/-- C5 witness: a server answering 500 to every attempt. -/
theorem retry_budget_exhaustion_continues_witness :
    ∃ st' toks,
      upload_csv_file (fun _ => "t") ⟨"j", 0⟩ ⟨fun _ => HttpResult.resp 500 "e", true⟩ =
        .ok (st', 0, toks, true)
      ∧ toks.length = 3
      ∧ runChunks (fun _ => "t") ⟨"j", 0⟩ [⟨fun _ => HttpResult.resp 500 "e", true⟩] =
          (runChunks (fun _ => "t") st' []).map (fun p => (p.1, (0, toks, true) :: p.2)) :=
  (retry_budget_exhaustion_continues (fun _ => "t") ⟨"j", 0⟩
    ⟨fun _ => HttpResult.resp 500 "e", true⟩ []).2 (fun _ => rfl)

/-- C9: when the upload of a chunk succeeds but the relocation raises, the
error escapes `upload_csv_file` — only `RetryError` is caught there (main.py
line 159) — and aborts the per-chunk processing instead of being ignored. -/
theorem move_failure_propagates (fresh : Nat → String) (st : LoopState)
    (env : ChunkEnv) (envs : List ChunkEnv)
    (hok : (uploadWithRetry fresh env.resp 3 st 0).2.1 = true)
    (hmv : env.moveOk = false) :
    upload_csv_file fresh st env = .error "shutil.move raised"
    ∧ runChunks fresh st (env :: envs) = .error "shutil.move raised" := by
  have h : upload_csv_file fresh st env = .error "shutil.move raised" := by
    unfold upload_csv_file
    simp [hok, hmv]
  refine ⟨h, ?_⟩
  unfold runChunks
  rw [h]

/-- C9 witness: success on the first attempt, then a failing move. -/
theorem move_failure_propagates_witness :
    upload_csv_file (fun _ => "t") ⟨"j", 0⟩ ⟨fun _ => HttpResult.resp 200 "ok", false⟩ =
      .error "shutil.move raised"
    ∧ runChunks (fun _ => "t") ⟨"j", 0⟩ [⟨fun _ => HttpResult.resp 200 "ok", false⟩] =
      .error "shutil.move raised" :=
  move_failure_propagates (fun _ => "t") ⟨"j", 0⟩
    ⟨fun _ => HttpResult.resp 200 "ok", false⟩ [] rfl rfl

/-- C10: any outcome other than a 401 response — a 200, any other status, or
a transport-level exception — leaves the stored `generated_jwt` (and the
re-authentication count) unchanged; and the state left by one chunk's
attempts is exactly the state the rest of the run continues from, whose
stored token the next chunk's first attempt puts in its header. -/
theorem generated_jwt_frame (st : LoopState) (fresh : Nat → String) (r : HttpResult)
    (hnot401 : ∀ body, r ≠ HttpResult.resp 401 body)
    (env : ChunkEnv) (envs : List ChunkEnv) (st' : LoopState)
    (moves : Nat) (toks : List String) (logged : Bool)
    (hchunk : upload_csv_file fresh st env = .ok (st', moves, toks, logged)) :
    (upload_call st r fresh).1 = st
    ∧ runChunks fresh st (env :: envs) =
        (runChunks fresh st' envs).map (fun p => (p.1, (moves, toks, logged) :: p.2))
    ∧ ∀ env2 : ChunkEnv,
        (uploadWithRetry fresh env2.resp 3 st' 0).2.2.head? =
          some st'.generated_jwt := by
  refine ⟨?_, runChunks_cons_ok fresh st env envs st' moves toks logged hchunk,
    fun env2 => uploadWithRetry_head_token fresh env2.resp 2 st' 0⟩
  unfold upload_call
  rcases r with ⟨s, b⟩ | m
  · by_cases h200 : s = 200
    · simp [h200]
    · have h401 : ¬ s = 401 := fun hs => hnot401 b (by rw [hs])
      simp [h200, h401]
  · rfl

/-- C10 witness: a 500 response leaves the token alone; a successful chunk
threads its state into the rest of the run. -/
theorem generated_jwt_frame_witness :
    (upload_call ⟨"j", 0⟩ (HttpResult.resp 500 "x") (fun _ => "t")).1 = ⟨"j", 0⟩
    ∧ runChunks (fun _ => "t") ⟨"j", 0⟩ [⟨fun _ => HttpResult.resp 200 "", true⟩] =
        (runChunks (fun _ => "t") ⟨"j", 0⟩ []).map (fun p => (p.1, (1, ["j"], false) :: p.2))
    ∧ ∀ env2 : ChunkEnv,
        (uploadWithRetry (fun _ => "t") env2.resp 3 ⟨"j", 0⟩ 0).2.2.head? = some "j" :=
  generated_jwt_frame ⟨"j", 0⟩ (fun _ => "t") (HttpResult.resp 500 "x")
    (fun body => by simp) ⟨fun _ => HttpResult.resp 200 "", true⟩ [] ⟨"j", 0⟩
    1 ["j"] false rfl

/-! ## The chunk-file writer `_write_chunk` (lines 232-243) -/

/-- Under `csv.QUOTE_MINIMAL` a field is quoted when it contains the
delimiter, the quote character, or a line-break character. -/
def needsQuoting (field : String) : Bool :=
  field.contains ',' || field.contains '"' ||
    field.contains '\n' || field.contains '\r'

/-- A single serialized field: quoted with internal quote characters doubled
when quoting is needed, verbatim otherwise. -/
def csvField (field : String) : String :=
  if needsQuoting field then "\"" ++ field.replace "\"" "\"\"" ++ "\"" else field

/-- One `csv.writer` output line (delimiter `,`, `QUOTE_MINIMAL`). -/
def writerow (row : Row) : String :=
  String.intercalate "," (row.map csvField)

/-- `_write_chunk` (lines 232-243), as the ordered lines of the chunk file it
creates: `writer.writerow(headers)` first, then `writer.writerows(chunk)`. -/
def write_chunk (headers : Row) (chunk : List Row) : List String :=
  writerow headers :: chunk.map writerow

/-- C7: every chunk file written by `_write_chunk` has the captured header
row as its first line, followed by exactly the chunk's buffered data rows. -/
theorem write_chunk_header_first (headers : Row) (chunk : List Row) :
    (write_chunk headers chunk).head? = some (writerow headers)
    ∧ (write_chunk headers chunk).tail = chunk.map writerow :=
  ⟨rfl, rfl⟩

/-! ## Credential resolution and constructor ordering (lines 99-130) -/

/-- The constructor arguments consumed by `_fill_username_password`:
credentials possibly supplied directly, and the optional names of the two
environment variables to read them from instead. -/
structure Args where
  username : Option String
  password : Option String
  envQualysUsernameProperty : Option String
  envQualysPasswordProperty : Option String

/-- `_fill_username_password` (lines 119-130): when both variable names are
configured, the credentials are replaced by `os.getenv` lookups (modelled by
`osenv`), and a `RuntimeError` is raised when either lookup is unset. -/
def fill_username_password (a : Args) (osenv : String → Option String) :
    Except String (Option String × Option String) :=
  match a.envQualysUsernameProperty, a.envQualysPasswordProperty with
  | some uvar, some pvar =>
    if osenv uvar = none ∨ osenv pvar = none then
      .error "Env properties were provided but not set for username password"
    else .ok (osenv uvar, osenv pvar)
  | _, _ => .ok (a.username, a.password)

/-- `CsvUploader.__init__` (lines 99-117): `_fill_username_password()` runs
at line 116, strictly before the initial `_generate_jwt()` network call at
line 117. The result carries the resolved credentials and the initial token;
the `Nat` counts the network requests issued during construction. -/
def csvUploader_init (a : Args) (osenv : String → Option String) (tok : String) :
    Except String (Option String × Option String × String) × Nat :=
  match fill_username_password a osenv with
  | .error e => (.error e, 0)
  | .ok (u, p) => (.ok (u, p, tok), 1)

/-- C8: with both credential environment-variable names configured and either
name resolving to an unset variable, construction fails with the
`RuntimeError` of `_fill_username_password` and zero network calls are made —
in particular the initial authentication request never happens. -/
theorem init_env_unset_fails_before_network (a : Args)
    (osenv : String → Option String) (tok : String) (uvar pvar : String)
    (hu : a.envQualysUsernameProperty = some uvar)
    (hp : a.envQualysPasswordProperty = some pvar)
    (hmiss : osenv uvar = none ∨ osenv pvar = none) :
    csvUploader_init a osenv tok =
      (.error "Env properties were provided but not set for username password",
        0) := by
  unfold csvUploader_init fill_username_password
  rw [hu, hp]
  simp [hmiss]

/-- C8 witness: both names configured, neither variable set. -/
theorem init_env_unset_fails_before_network_witness :
    csvUploader_init ⟨some "u", some "p", some "UV", some "PV"⟩ (fun _ => none)
        "tok" =
      (.error "Env properties were provided but not set for username password",
        0) :=
  init_env_unset_fails_before_network ⟨some "u", some "p", some "UV", some "PV"⟩
    (fun _ => none) "tok" "UV" "PV" rfl rfl (Or.inl rfl)

/-! ## Filesystem-event ordering of the run (lines 149-162, 199-230, 245-251) -/

/-- The filesystem operations the pipeline performs, in program order. -/
inductive FsEvent where
  | mkdir (path : String)
  | writeFile (path : String)
  | move (src dst : String)
deriving Repr, DecidableEq

/-- `chunk_file_path = os.path.join(output_dir, f"{filename}_{chunk_index}.csv")`
(lines 153, 233-234). -/
def chunk_file_path (outputDir fname : String) (idx : Nat) : String :=
  outputDir ++ "/" ++ fname ++ "_" ++ toString idx ++ ".csv"

/-- `processed_chunk_path = os.path.join(output_dir, PROCESSED_DIR,
chunk_filename)` (lines 150-152). -/
def processed_chunk_path (outputDir fname : String) (idx : Nat) : String :=
  outputDir ++ "/" ++ PROCESSED_DIR ++ "/" ++ fname ++ "_" ++ toString idx ++ ".csv"

def isMoveEvent : FsEvent → Bool
  | .move _ _ => true
  | _ => false

/-- The per-chunk filesystem events of the run: each sealed chunk is written
(`_write_chunk`), then `upload_csv_file` runs — a successful upload is
followed by the single `shutil.move` into the `PROCESSED_DIR` sub-area
(line 157), an exhausted retry leaves the file in place, and an exception
escaping `upload_csv_file` aborts the run. -/
def uploadChunksEvents (outputDir fname : String) (fresh : Nat → String)
    (cenv : Nat → ChunkEnv) : List (List Row) → LoopState → Nat → List FsEvent
  | [], _, _ => []
  | _chunk :: rest, st, idx =>
    FsEvent.writeFile (chunk_file_path outputDir fname idx) ::
      match upload_csv_file fresh st (cenv idx) with
      | .error _ => []
      | .ok (st', moves, _, _) =>
        (if moves = 1 then
          [FsEvent.move (chunk_file_path outputDir fname idx)
            (processed_chunk_path outputDir fname idx)]
        else []) ++ uploadChunksEvents outputDir fname fresh cenv rest st' (idx + 1)

/-- `process_and_upload_chunks` at the filesystem-event level: line 200 calls
`_prepare_output_directory`, whose `os.makedirs(os.path.join(output_dir,
PROCESSED_DIR), exist_ok=True)` (line 250) creates the sub-area
unconditionally, before any chunk is written or uploaded; then the sealed
chunks are processed in sequence order starting at index 1. -/
def process_and_upload_chunks_events (outputDir fname : String)
    (rows : List Row) (fresh : Nat → String) (cenv : Nat → ChunkEnv)
    (st0 : LoopState) : List FsEvent :=
  FsEvent.mkdir (outputDir ++ "/" ++ PROCESSED_DIR) ::
    uploadChunksEvents outputDir fname fresh cenv (chunkRows rows) st0 1

/-- C6 counterexample to "created lazily": a run over a source with no data
rows seals no chunk and delivers nothing, yet the sub-area receiving
delivered chunks is created anyway — `_prepare_output_directory` runs
`os.makedirs` eagerly at the start of every run (line 250), not lazily on
first delivery. -/
theorem delivered_area_created_without_delivery :
    process_and_upload_chunks_events "out" "f" [] (fun _ => "t")
        (fun _ => ⟨fun _ => HttpResult.resp 200 "", true⟩) ⟨"j", 0⟩
      = [FsEvent.mkdir "out/uploaded"]
    ∧ (process_and_upload_chunks_events "out" "f" [] (fun _ => "t")
        (fun _ => ⟨fun _ => HttpResult.resp 200 "", true⟩) ⟨"j", 0⟩).countP
          isMoveEvent = 0 := by
  constructor <;> rfl

/-- C6 (amended): a chunk file is relocated exactly once if and only if its
upload succeeded — a chunk whose three attempts are exhausted is never
relocated and is left in the run's working directory — and the `uploaded`
(delivered) sub-area under the run directory is created eagerly by
`_prepare_output_directory` at the start of the run, before any chunk is
written, uploaded or relocated. -/
theorem relocation_iff_success (outputDir fname : String) (rows : List Row)
    (fresh : Nat → String) (cenv : Nat → ChunkEnv) (st0 st : LoopState)
    (env : ChunkEnv) :
    (process_and_upload_chunks_events outputDir fname rows fresh cenv st0).head?
      = some (FsEvent.mkdir (outputDir ++ "/" ++ PROCESSED_DIR))
    ∧ ((uploadWithRetry fresh env.resp 3 st 0).2.1 = false →
        ∃ st' toks, upload_csv_file fresh st env = .ok (st', 0, toks, true))
    ∧ (env.moveOk = true →
        ((uploadWithRetry fresh env.resp 3 st 0).2.1 = true ↔
          ∃ st' toks logged,
            upload_csv_file fresh st env = .ok (st', 1, toks, logged))) := by
  refine ⟨rfl, fun hfail => ?_, fun hmv => ⟨fun hok => ?_, fun hex => ?_⟩⟩
  · refine ⟨(uploadWithRetry fresh env.resp 3 st 0).1,
      (uploadWithRetry fresh env.resp 3 st 0).2.2, ?_⟩
    unfold upload_csv_file
    simp [hfail]
  · refine ⟨(uploadWithRetry fresh env.resp 3 st 0).1,
      (uploadWithRetry fresh env.resp 3 st 0).2.2, false, ?_⟩
    unfold upload_csv_file
    simp [hok, hmv]
  · obtain ⟨st', toks, logged, h⟩ := hex
    by_contra hf
    have hfalse : (uploadWithRetry fresh env.resp 3 st 0).2.1 = false :=
      Bool.not_eq_true _ ▸ eq_false_of_ne_true hf
    unfold upload_csv_file at h
    simp [hfalse] at h

/-- C6 witness: a one-row source whose single chunk uploads on the first
attempt and is relocated once. -/
theorem relocation_iff_success_witness :
    (process_and_upload_chunks_events "out" "f" [["a"]] (fun _ => "t")
        (fun _ => ⟨fun _ => HttpResult.resp 200 "", true⟩) ⟨"j", 0⟩).head?
      = some (FsEvent.mkdir "out/uploaded")
    ∧ ((uploadWithRetry (fun _ => "t") (fun _ => HttpResult.resp 200 "") 3
          ⟨"j", 0⟩ 0).2.1 = true ↔
        ∃ st' toks logged,
          upload_csv_file (fun _ => "t") ⟨"j", 0⟩
              ⟨fun _ => HttpResult.resp 200 "", true⟩ =
            .ok (st', 1, toks, logged)) :=
  ⟨(relocation_iff_success "out" "f" [["a"]] (fun _ => "t")
      (fun _ => ⟨fun _ => HttpResult.resp 200 "", true⟩) ⟨"j", 0⟩ ⟨"j", 0⟩
      ⟨fun _ => HttpResult.resp 200 "", true⟩).1,
    (relocation_iff_success "out" "f" [["a"]] (fun _ => "t")
      (fun _ => ⟨fun _ => HttpResult.resp 200 "", true⟩) ⟨"j", 0⟩ ⟨"j", 0⟩
      ⟨fun _ => HttpResult.resp 200 "", true⟩).2.2 rfl⟩

end FileUploader
